import Mathlib

/-!
Verification of the isomorphicdb query-processing core against its
specification.  The definitions below are a shallow embedding of the
Rust source: `entities/types` (the type lattice), `entities/definition`
(qualified names), `data/schema_planner` (the DDL planner) and
`query_analyzer/static_tree_builder` (the static expression builder).
Rust `String` is modelled as Lean `String`, `Vec<T>` as `List T`,
`Option`/`Result` as `Option`/`Except`, and a Rust panic as the `none`
case of an `Option`-valued function.
-/

namespace IsoDB

/-! ## Type lattice (`src/entities/types/src/lib.rs`) -/

/-- Rust `SqlTypeFamily` from `entities/types`. -/
inductive SqlTypeFamily where
  | bool
  | string
  | smallInt
  | integer
  | bigInt
  | real
  | double
deriving DecidableEq, Repr

/-- Rust `IncomparableSqlTypeFamilies { left, right }` error value. -/
structure IncomparableSqlTypeFamilies where
  left : SqlTypeFamily
  right : SqlTypeFamily
deriving DecidableEq, Repr

namespace SqlTypeFamily

/-- Rust `SqlTypeFamily::is_float`. -/
def is_float (t : SqlTypeFamily) : Bool :=
  t = SqlTypeFamily.real || t = SqlTypeFamily.double

/-- Rust `SqlTypeFamily::is_int`. -/
def is_int (t : SqlTypeFamily) : Bool :=
  t = SqlTypeFamily.smallInt || t = SqlTypeFamily.integer || t = SqlTypeFamily.bigInt

/-- Rust `SqlTypeFamily::compare`.  Note the Rust condition
`self == SmallInt && other == Integer || other == BigInt` parses as
`(self == SmallInt && other == Integer) || other == BigInt` because `&&`
binds tighter than `||`. -/
def compare (self other : SqlTypeFamily) :
    Except IncomparableSqlTypeFamilies SqlTypeFamily :=
  if self.is_float && other.is_float then
    if self = other then Except.ok self
    else if self = SqlTypeFamily.real ∧ other = SqlTypeFamily.double then Except.ok other
    else Except.ok self
  else if self.is_int && other.is_int then
    if self = other then Except.ok self
    else if (self = SqlTypeFamily.smallInt ∧ other = SqlTypeFamily.integer)
        ∨ other = SqlTypeFamily.bigInt then Except.ok other
    else Except.ok self
  else if self.is_float && other.is_int then Except.ok self
  else if self.is_int && other.is_float then Except.ok other
  else if self ≠ other then Except.error ⟨self, other⟩
  else Except.ok self

end SqlTypeFamily

/-- Integral-width order used by the specification's dominance rule:
`BigInt ≻ Integer ≻ SmallInt`. -/
def intRank : SqlTypeFamily → Nat
  | SqlTypeFamily.smallInt => 0
  | SqlTypeFamily.integer => 1
  | SqlTypeFamily.bigInt => 2
  | _ => 0

/-- Spec-side restatement of the family-comparison rule, written from the
specification's words (dominant family: `Double` over `Real` for floats,
the wider of `BigInt ≻ Integer ≻ SmallInt` for integrals, the floating
operand for mixed float/int, the common value for equal families, and an
`IncomparableSqlTypeFamilies` error otherwise).  Used only to be compared
against the source's `SqlTypeFamily.compare`. -/
def compareSpec (a b : SqlTypeFamily) :
    Except IncomparableSqlTypeFamilies SqlTypeFamily :=
  if a = b then Except.ok a
  else if a.is_float && b.is_float then Except.ok SqlTypeFamily.double
  else if a.is_int && b.is_int then
    Except.ok (if intRank b ≤ intRank a then a else b)
  else if a.is_float && b.is_int then Except.ok a
  else if a.is_int && b.is_float then Except.ok b
  else Except.error ⟨a, b⟩

/-- Rust `Num` from `entities/types` (integral and floating numeric types). -/
inductive NumType where
  | smallInt
  | integer
  | bigInt
  | real
  | double
deriving DecidableEq, Repr

/-- Rust `Str` from `entities/types` (string kinds). -/
inductive StrKind where
  | const
  | var
deriving DecidableEq, Repr

/-- Rust `SqlType` from `entities/types`. -/
inductive SqlType where
  | bool
  | str (len : Nat) (kind : StrKind)
  | num (n : NumType)
deriving DecidableEq, Repr

namespace SqlType

/-- Rust `SqlType::char`. -/
def char (len : Nat) : SqlType := SqlType.str len StrKind.const

/-- Rust `SqlType::var_char`. -/
def var_char (len : Nat) : SqlType := SqlType.str len StrKind.var

/-- Rust `SqlType::small_int`. -/
def small_int : SqlType := SqlType.num NumType.smallInt

/-- Rust `SqlType::integer`. -/
def integer : SqlType := SqlType.num NumType.integer

/-- Rust `SqlType::big_int`. -/
def big_int : SqlType := SqlType.num NumType.bigInt

/-- Rust `SqlType::real`. -/
def real : SqlType := SqlType.num NumType.real

/-- Rust `SqlType::double_precision`. -/
def double_precision : SqlType := SqlType.num NumType.double

/-- Rust `SqlType::type_id`. -/
def type_id : SqlType → Nat
  | SqlType.bool => 0
  | SqlType.str _ StrKind.const => 1
  | SqlType.str _ StrKind.var => 2
  | SqlType.num NumType.smallInt => 3
  | SqlType.num NumType.integer => 4
  | SqlType.num NumType.bigInt => 5
  | SqlType.num NumType.real => 6
  | SqlType.num NumType.double => 7

/-- Rust `SqlType::from_type_id`.  The Rust function hits `unreachable!()` on
any id outside `[0,7]`; that panic is modelled as `none`. -/
def from_type_id (typeId charsLen : Nat) : Option SqlType :=
  match typeId with
  | 0 => some SqlType.bool
  | 1 => some (char charsLen)
  | 2 => some (var_char charsLen)
  | 3 => some small_int
  | 4 => some integer
  | 5 => some big_int
  | 6 => some real
  | 7 => some double_precision
  | _ => none

/-- Rust `SqlType::chars_len`. -/
def chars_len : SqlType → Option Nat
  | SqlType.str len _ => some len
  | _ => none

end SqlType

/-! ## Claims C3 and C7 -/

/-- C3: `SqlTypeFamily::compare` returns the dominant family: `Double`
when both operands are floating and differ; the wider under
`BigInt ≻ Integer ≻ SmallInt` when both are integral and differ; the
floating operand's family when exactly one operand is floating and the
other integral; the left operand when the two are equal; and
`IncomparableSqlTypeFamilies{left, right}` when they differ and are not
both numeric. -/
theorem compare_eq_compareSpec (a b : SqlTypeFamily) :
    SqlTypeFamily.compare a b = compareSpec a b := by
  cases a <;> cases b <;> rfl

/-- C7: the `(type_id, chars_len)` encoding of `SqlType` round-trips:
decoding a type's id with its `chars_len` (defaulted to 0 for non-string
types) recovers the type. -/
theorem from_type_id_type_id (t : SqlType) :
    SqlType.from_type_id t.type_id (t.chars_len.getD 0) = some t := by
  rcases t with _ | ⟨len, k⟩ | n
  · rfl
  · cases k <;> rfl
  · cases n <;> rfl

/-! ## Names (`src/entities/definition/src/lib.rs`)

`sql_ast::ObjectName` is a vector of identifiers; `FullTableName::try_from`
only reads each identifier's `value` and the rendered dotted name, so an
object name is modelled as the list of its identifier values and
`ObjectName::to_string` as the dot-joined list.  Rust's
`str::to_lowercase` is modelled as a characterwise lowercase map. -/

/-- Model of Rust's `str::to_lowercase`: lowercase every character. -/
def lowercase (s : String) : String := ⟨s.data.map Char.toLower⟩

/-- Rust `FullTableName`: the `(schema, table)` pair. -/
structure FullTableName where
  schema : String
  table : String
deriving DecidableEq, Repr

/-- Rust `TableNamingError` carrying the offending full name string. -/
structure TableNamingError where
  name : String
deriving DecidableEq, Repr

/-- Rust `ObjectName::to_string`: the identifiers joined with dots. -/
def objectNameToString (object : List String) : String :=
  String.intercalate "." object

/-- Rust `FullTableName::try_from(&ObjectName)`.  The Rust body calls
`object.0.first().unwrap()` (and `.last().unwrap()`); the panic on an
empty identifier list is modelled as `none`. -/
def FullTableName.try_from (object : List String) :
    Option (Except TableNamingError FullTableName) :=
  if object.length > 2 then
    some (Except.error ⟨objectNameToString object⟩)
  else if object.length = 1 then
    match object.head? with
    | some first => some (Except.ok ⟨lowercase "public", lowercase first⟩)
    | none => none
  else
    match object.head?, object.getLast? with
    | some first, some last => some (Except.ok ⟨lowercase first, lowercase last⟩)
    | _, _ => none

/-! ## Claims C8 and C10 -/

/-- C8: `FullTableName::try_from` on a one-segment object name returns
`("public", segment.toLower)`; on a two-segment name returns both
segments lowercased; and on three or more segments returns a
`TableNamingError` carrying the dotted full name. -/
theorem try_from_segments
    (s t : String) (segs : List String) (h3 : 3 ≤ segs.length) :
    FullTableName.try_from [s] = some (Except.ok ⟨"public", lowercase s⟩) ∧
    FullTableName.try_from [s, t] =
      some (Except.ok ⟨lowercase s, lowercase t⟩) ∧
    FullTableName.try_from segs =
      some (Except.error ⟨objectNameToString segs⟩) := by
  refine ⟨?_, rfl, ?_⟩
  · rw [show FullTableName.try_from [s] =
        some (Except.ok ⟨lowercase "public", lowercase s⟩) from rfl]
    rw [show lowercase "public" = "public" from by decide]
  · have hgt : segs.length > 2 := h3
    simp only [FullTableName.try_from]
    rw [if_pos hgt]

/-- Witness for C8 at concrete inputs. -/
theorem try_from_segments_witness :
    FullTableName.try_from ["A"] = some (Except.ok ⟨"public", "a"⟩) ∧
    FullTableName.try_from ["A", "B"] = some (Except.ok ⟨"a", "b"⟩) ∧
    FullTableName.try_from ["a", "b", "c"] =
      some (Except.error ⟨"a.b.c"⟩) :=
  try_from_segments "A" "B" ["a", "b", "c"] (by decide)

/-- C10: `FullTableName::try_from` is not total on zero-segment object
names — on the empty identifier list it panics (modelled as `none`,
neither a `FullTableName` nor a `TableNamingError`) — while every object
name with at least one segment yields a value. -/
theorem try_from_zero_segments
    (segs : List String) (h : segs ≠ []) :
    FullTableName.try_from [] = none ∧
    ∃ r, FullTableName.try_from segs = some r := by
  refine ⟨rfl, ?_⟩
  rcases segs with _ | ⟨a, rest⟩
  · exact absurd rfl h
  rcases rest with _ | ⟨b, rest2⟩
  · exact ⟨_, rfl⟩
  rcases rest2 with _ | ⟨c, rest3⟩
  · exact ⟨_, rfl⟩
  refine ⟨Except.error ⟨objectNameToString (a :: b :: c :: rest3)⟩, ?_⟩
  have hgt : (a :: b :: c :: rest3).length > 2 := by
    simp [List.length_cons]
  simp only [FullTableName.try_from]
  rw [if_pos hgt]

/-- Witness for C10 at concrete inputs. -/
theorem try_from_zero_segments_witness :
    FullTableName.try_from [] = none ∧
    ∃ r, FullTableName.try_from ["a"] = some r :=
  try_from_zero_segments ["a"] (by decide)

/-! ## DDL planner (`src/data/schema_planner/src/lib.rs`)

The planner's input and output vocabulary comes from the
`data_definition_execution_plan` and `data_definition_operations` crates;
their shapes are fixed by the planner's own pattern matches and by the
planner crate's tests, which construct every query and step variant.
`SchemaName::as_ref().to_string()` is the wrapped string, so schema names
appear directly as `String`. -/

/-- Rust `SystemObject`. -/
inductive SystemObject where
  | schema
  | table
deriving DecidableEq, Repr

/-- Rust `ObjectState` (the states `skip_steps_if` can test). -/
inductive ObjectState where
  | exists'
  | notExists
deriving DecidableEq, Repr

/-- Rust `Kind` of a system operation. -/
inductive Kind where
  | create (obj : SystemObject)
  | drop (obj : SystemObject)
deriving DecidableEq, Repr

/-- Rust `Record`: catalog rows. -/
inductive Record where
  | schema (schema_name : String)
  | table (schema_name table_name : String)
  | column (schema_name table_name column_name : String) (sql_type : SqlType)
deriving DecidableEq, Repr

/-- Rust `Step`: the low-level DDL step vocabulary. -/
inductive Step where
  | checkExistence (system_object : SystemObject) (object_name : List String)
  | checkDependants (system_object : SystemObject) (object_name : List String)
  | removeDependants (system_object : SystemObject) (object_name : List String)
  | createFolder (name : String)
  | removeFolder (name : String) (only_if_empty : Bool)
  | createFile (folder_name name : String)
  | removeFile (folder_name name : String)
  | createRecord (record : Record)
  | removeRecord (record : Record)
  | removeColumns (schema_name table_name : String)
deriving DecidableEq, Repr

/-- Rust `SystemOperation`: the planner's output. -/
structure SystemOperation where
  kind : Kind
  skip_steps_if : Option ObjectState
  steps : List (List Step)
deriving DecidableEq, Repr

/-- Rust `ColumnInfo`. -/
structure ColumnInfo where
  name : String
  sql_type : SqlType
deriving DecidableEq, Repr

/-- Rust `CreateSchemaQuery`. -/
structure CreateSchemaQuery where
  schema_name : String
  if_not_exists : Bool
deriving DecidableEq, Repr

/-- Rust `DropSchemasQuery`. -/
structure DropSchemasQuery where
  schema_names : List String
  cascade : Bool
  if_exists : Bool
deriving DecidableEq, Repr

/-- Rust `CreateTableQuery`. -/
structure CreateTableQuery where
  full_table_name : FullTableName
  column_defs : List ColumnInfo
  if_not_exists : Bool
deriving DecidableEq, Repr

/-- Rust `DropTablesQuery`.  The parser supplies `cascade`; the planner's
match binds only `full_table_names` and `if_exists` (the `..` pattern). -/
structure DropTablesQuery where
  full_table_names : List FullTableName
  cascade : Bool
  if_exists : Bool
deriving DecidableEq, Repr

/-- Rust `SchemaChange`: the planner's input intents. -/
inductive SchemaChange where
  | createSchema (q : CreateSchemaQuery)
  | dropSchemas (q : DropSchemasQuery)
  | createTable (q : CreateTableQuery)
  | dropTables (q : DropTablesQuery)
deriving DecidableEq, Repr

/-- Rust `SystemSchemaPlanner::schema_change_plan`.  The Rust `for` loops that
push one sub-program per name translate to `List.map`. -/
def schema_change_plan : SchemaChange → SystemOperation
  | SchemaChange.createSchema q =>
      { kind := Kind.create SystemObject.schema
        skip_steps_if := if q.if_not_exists then some ObjectState.exists' else none
        steps := [[Step.checkExistence SystemObject.schema [q.schema_name],
                   Step.createFolder q.schema_name,
                   Step.createRecord (Record.schema q.schema_name)]] }
  | SchemaChange.dropSchemas q =>
      { kind := Kind.drop SystemObject.schema
        skip_steps_if := if q.if_exists then some ObjectState.notExists else none
        steps := q.schema_names.map fun n =>
          [Step.checkExistence SystemObject.schema [n],
           if q.cascade then Step.removeDependants SystemObject.schema [n]
           else Step.checkDependants SystemObject.schema [n],
           Step.removeRecord (Record.schema n),
           Step.removeFolder n (!q.cascade)] }
  | SchemaChange.createTable q =>
      { kind := Kind.create SystemObject.table
        skip_steps_if := if q.if_not_exists then some ObjectState.exists' else none
        steps := [[Step.checkExistence SystemObject.schema [q.full_table_name.schema],
                   Step.checkExistence SystemObject.table
                     [q.full_table_name.schema, q.full_table_name.table],
                   Step.createFile q.full_table_name.schema q.full_table_name.table,
                   Step.createRecord
                     (Record.table q.full_table_name.schema q.full_table_name.table)]
                  ++ q.column_defs.map fun c =>
                       Step.createRecord (Record.column q.full_table_name.schema
                         q.full_table_name.table c.name c.sql_type)] }
  | SchemaChange.dropTables q =>
      { kind := Kind.drop SystemObject.table
        skip_steps_if := if q.if_exists then some ObjectState.notExists else none
        steps := q.full_table_names.map fun f =>
          [Step.checkExistence SystemObject.schema [f.schema],
           Step.checkExistence SystemObject.table [f.schema, f.table],
           Step.removeColumns f.schema f.table,
           Step.removeRecord (Record.table f.schema f.table),
           Step.removeFile f.schema f.table] }

/-! ## Claim C2 -/

/-- C2: the planner's output for a `DropTables` intent does not depend on
the intent's `cascade` flag. -/
theorem drop_tables_ignores_cascade
    (names : List FullTableName) (if_ex c c' : Bool) :
    schema_change_plan (SchemaChange.dropTables ⟨names, c, if_ex⟩) =
      schema_change_plan (SchemaChange.dropTables ⟨names, c', if_ex⟩) := rfl

/-! ## Claim C4 -/

/-- C4: `skip_steps_if` is `some exists'` exactly for `CreateSchema` and
`CreateTable` intents with `if_not_exists = true`, `some notExists`
exactly for `DropSchemas` and `DropTables` intents with
`if_exists = true`, and `none` in all other cases. -/
theorem skip_steps_if_characterization (s : SchemaChange) :
    ((schema_change_plan s).skip_steps_if = some ObjectState.exists' ↔
      (∃ q, s = SchemaChange.createSchema q ∧ q.if_not_exists = true) ∨
      (∃ q, s = SchemaChange.createTable q ∧ q.if_not_exists = true)) ∧
    ((schema_change_plan s).skip_steps_if = some ObjectState.notExists ↔
      (∃ q, s = SchemaChange.dropSchemas q ∧ q.if_exists = true) ∨
      (∃ q, s = SchemaChange.dropTables q ∧ q.if_exists = true)) ∧
    ((schema_change_plan s).skip_steps_if = none ↔
      ¬ ((∃ q, s = SchemaChange.createSchema q ∧ q.if_not_exists = true) ∨
         (∃ q, s = SchemaChange.createTable q ∧ q.if_not_exists = true) ∨
         (∃ q, s = SchemaChange.dropSchemas q ∧ q.if_exists = true) ∨
         (∃ q, s = SchemaChange.dropTables q ∧ q.if_exists = true))) := by
  cases s with
  | createSchema q => cases hb : q.if_not_exists <;>
      simp [schema_change_plan, hb]
  | dropSchemas q => cases hb : q.if_exists <;>
      simp [schema_change_plan, hb]
  | createTable q => cases hb : q.if_not_exists <;>
      simp [schema_change_plan, hb]
  | dropTables q => cases hb : q.if_exists <;>
      simp [schema_change_plan, hb]

/-! ## Claim C5 -/

/-- C5: every sub-program the planner emits for a `DropSchemas` intent
with cascade flag `c` ends with `RemoveFolder{only_if_empty = !c}`, and
its second step is `RemoveDependants` when `c` is true and
`CheckDependants` when `c` is false. -/
theorem drop_schemas_subprogram_shape
    (names : List String) (c if_ex : Bool) (sp : List Step)
    (h : sp ∈ (schema_change_plan
        (SchemaChange.dropSchemas ⟨names, c, if_ex⟩)).steps) :
    ∃ n ∈ names,
      sp.getLast? = some (Step.removeFolder n (!c)) ∧
      sp[1]? = some (if c then Step.removeDependants SystemObject.schema [n]
                     else Step.checkDependants SystemObject.schema [n]) := by
  obtain ⟨n, hn, rfl⟩ := List.mem_map.mp h
  exact ⟨n, hn, rfl, rfl⟩

/-- Witness for C5 at a concrete `DropSchemas` intent. -/
theorem drop_schemas_subprogram_shape_witness :
    ∃ n ∈ ["s"],
      List.getLast? [Step.checkExistence SystemObject.schema ["s"],
          Step.removeDependants SystemObject.schema ["s"],
          Step.removeRecord (Record.schema "s"),
          Step.removeFolder "s" false] =
        some (Step.removeFolder n (!true)) ∧
      [Step.checkExistence SystemObject.schema ["s"],
          Step.removeDependants SystemObject.schema ["s"],
          Step.removeRecord (Record.schema "s"),
          Step.removeFolder "s" false][1]? =
        some (if true then Step.removeDependants SystemObject.schema [n]
              else Step.checkDependants SystemObject.schema [n]) :=
  drop_schemas_subprogram_shape ["s"] true false _ (List.mem_singleton.mpr rfl)

/-! ## Claim C6 -/

/-- Is a step a `CreateRecord` of a `Column` record? -/
def isColumnRecord : Step → Bool
  | Step.createRecord (Record.column _ _ _ _) => true
  | _ => false

/-- C6: the single sub-program the planner emits for `CreateTable`
consists of a column-record-free prefix followed by exactly one
`CreateRecord{Column}` per declared column, in declaration order, and
the `CreateRecord{Table}` step lies in that prefix (so every column
record comes after it). -/
theorem create_table_column_records (q : CreateTableQuery) :
    ∃ pre,
      (schema_change_plan (SchemaChange.createTable q)).steps =
        [pre ++ q.column_defs.map (fun c => Step.createRecord
          (Record.column q.full_table_name.schema q.full_table_name.table
            c.name c.sql_type))] ∧
      (pre ++ q.column_defs.map (fun c => Step.createRecord
          (Record.column q.full_table_name.schema q.full_table_name.table
            c.name c.sql_type))).filter isColumnRecord =
        q.column_defs.map (fun c => Step.createRecord
          (Record.column q.full_table_name.schema q.full_table_name.table
            c.name c.sql_type)) ∧
      (∀ st ∈ pre, isColumnRecord st = false) ∧
      Step.createRecord
        (Record.table q.full_table_name.schema q.full_table_name.table) ∈ pre := by
  refine ⟨[Step.checkExistence SystemObject.schema [q.full_table_name.schema],
           Step.checkExistence SystemObject.table
             [q.full_table_name.schema, q.full_table_name.table],
           Step.createFile q.full_table_name.schema q.full_table_name.table,
           Step.createRecord
             (Record.table q.full_table_name.schema q.full_table_name.table)],
          rfl, ?_, ?_, ?_⟩
  · rw [List.filter_append]
    rw [show List.filter isColumnRecord
        [Step.checkExistence SystemObject.schema [q.full_table_name.schema],
         Step.checkExistence SystemObject.table
           [q.full_table_name.schema, q.full_table_name.table],
         Step.createFile q.full_table_name.schema q.full_table_name.table,
         Step.createRecord
           (Record.table q.full_table_name.schema q.full_table_name.table)] =
        [] from rfl]
    rw [List.nil_append]
    exact List.filter_eq_self.mpr (by
      intro a ha
      obtain ⟨c, _, rfl⟩ := List.mem_map.mp ha
      rfl)
  · intro st hst
    rcases hst with _ | ⟨_, _ | ⟨_, _ | ⟨_, _ | ⟨_, h⟩⟩⟩⟩
    · rfl
    · rfl
    · rfl
    · rfl
    · cases h
  · simp

/-! ## Claim C1 -/

/-- The object each sub-program targets, in sub-program order: the schema
being created or dropped, or the table being created or dropped. -/
def subProgramTargets : SchemaChange → List (SystemObject × List String)
  | SchemaChange.createSchema q => [(SystemObject.schema, [q.schema_name])]
  | SchemaChange.dropSchemas q =>
      q.schema_names.map fun n => (SystemObject.schema, [n])
  | SchemaChange.createTable q =>
      [(SystemObject.table,
        [q.full_table_name.schema, q.full_table_name.table])]
  | SchemaChange.dropTables q =>
      q.full_table_names.map fun f => (SystemObject.table, [f.schema, f.table])

/-- C1 as stated: `steps` is non-empty, there is one sub-program per
target, and each sub-program's first step is a `CheckExistence` of that
sub-program's target object. -/
def c1Statement (s : SchemaChange) : Prop :=
  (schema_change_plan s).steps ≠ [] ∧
  (schema_change_plan s).steps.length = (subProgramTargets s).length ∧
  ∀ p ∈ (schema_change_plan s).steps.zip (subProgramTargets s),
    p.1.head? = some (Step.checkExistence p.2.1 p.2.2)

/-- C1 counterexample: for a `CreateTable` intent the first step of the
sub-program is a `CheckExistence` of the parent *schema*, not of the
target table, so the claim as stated fails. -/
theorem c1_counterexample :
    ¬ c1Statement (SchemaChange.createTable ⟨⟨"s", "t"⟩, [], false⟩) := by
  unfold c1Statement
  decide

/-- C1 amended: there is exactly one sub-program per target object (so
`steps` is non-empty except for a drop intent with an empty name list);
every sub-program begins with a `CheckExistence`; for schema targets the
first `CheckExistence` references the target schema itself, while for
table targets it references the target's parent schema and the *second*
step is the `CheckExistence` of the target table. -/
def c1Amended (s : SchemaChange) : Prop :=
  (schema_change_plan s).steps.length = (subProgramTargets s).length ∧
  ∀ p ∈ (schema_change_plan s).steps.zip (subProgramTargets s),
    match p.2.1 with
    | SystemObject.schema =>
        p.1.head? = some (Step.checkExistence SystemObject.schema p.2.2)
    | SystemObject.table =>
        p.1.head? =
          some (Step.checkExistence SystemObject.schema (p.2.2.take 1)) ∧
        p.1[1]? = some (Step.checkExistence SystemObject.table p.2.2)

/-- C1 (amended) holds for every `SchemaChange`. -/
theorem c1_amended_holds (s : SchemaChange) : c1Amended s := by
  cases s with
  | createSchema q =>
      refine ⟨rfl, ?_⟩
      intro p hp
      rw [List.mem_singleton.mp hp]
      exact rfl
  | dropSchemas q =>
      refine ⟨by simp [schema_change_plan, subProgramTargets], ?_⟩
      intro p hp
      rw [show (schema_change_plan (SchemaChange.dropSchemas q)).steps.zip
            (subProgramTargets (SchemaChange.dropSchemas q)) =
          q.schema_names.map (fun n =>
            ([Step.checkExistence SystemObject.schema [n],
              if q.cascade then Step.removeDependants SystemObject.schema [n]
              else Step.checkDependants SystemObject.schema [n],
              Step.removeRecord (Record.schema n),
              Step.removeFolder n (!q.cascade)],
             (SystemObject.schema, [n]))) from List.zip_map' _ _ _] at hp
      obtain ⟨n, _, rfl⟩ := List.mem_map.mp hp
      exact rfl
  | createTable q =>
      refine ⟨rfl, ?_⟩
      intro p hp
      rw [List.mem_singleton.mp hp]
      exact ⟨rfl, rfl⟩
  | dropTables q =>
      refine ⟨by simp [schema_change_plan, subProgramTargets], ?_⟩
      intro p hp
      rw [show (schema_change_plan (SchemaChange.dropTables q)).steps.zip
            (subProgramTargets (SchemaChange.dropTables q)) =
          q.full_table_names.map (fun f =>
            ([Step.checkExistence SystemObject.schema [f.schema],
              Step.checkExistence SystemObject.table [f.schema, f.table],
              Step.removeColumns f.schema f.table,
              Step.removeRecord (Record.table f.schema f.table),
              Step.removeFile f.schema f.table],
             (SystemObject.table, [f.schema, f.table]))) from
          List.zip_map' _ _ _] at hp
      obtain ⟨f, _, rfl⟩ := List.mem_map.mp hp
      exact ⟨rfl, rfl⟩

/-! ## Static tree builder (`src/query_analyzer/src/static_tree_builder.rs`)

The builder walks `sql_ast::Expr`.  Only the parts of the AST the builder
reads are modelled: a value literal's payload, an identifier's `value`,
and a binary node's two children and operator.  The surrounding statement
is only threaded through for error reporting, so the rendered
`SyntaxError` locus is modelled structurally as the statement together
with the offending expression.  The operator table
(`operation_mapper.rs`), `parse_param_index` and the `AnalysisError`
taxonomy live in files of this crate that are not among the sources; they
are modelled from the spec below. -/

/-- Numeric literals (`BigDecimal`) are carried verbatim by the builder;
they are modelled as their source text. -/
inductive Value where
  | number (n : String)
  | singleQuotedString (s : String)
  | nationalStringLiteral (s : String)
  | hexStringLiteral (s : String)
  | boolean (b : Bool)
  | interval
  | null
deriving DecidableEq, Repr

/-- Binary operators accepted by the analyzer (spec §6). -/
inductive BinaryOperator where
  | plus
  | minus
  | multiply
  | divide
  | modulus
  | eq
  | notEq
  | lt
  | ltEq
  | gt
  | gtEq
  | and
  | or
  | bitwiseAnd
  | bitwiseOr
  | bitwiseXor
  | shiftLeft
  | shiftRight
  | stringConcat
  | like
  | notLike
deriving DecidableEq, Repr

/-- Expression shapes the builder distinguishes; `otherExpr` stands for
every remaining `sql_ast::Expr` variant, all of which reach the
catch-all `SyntaxError` arm. -/
inductive Expr where
  | value (v : Value)
  | identifier (value : String)
  | binaryOp (left : Expr) (op : BinaryOperator) (right : Expr)
  | otherExpr
deriving DecidableEq, Repr

/-- Statement wrapper: the builder only threads the statement through to
error rendering. -/
structure Statement where
  text : String
deriving DecidableEq, Repr

/-- Arithmetic operation family. -/
inductive Arithmetic where
  | add
  | sub
  | mul
  | div
  | mod
deriving DecidableEq, Repr

/-- Comparison operation family. -/
inductive Comparison where
  | eq
  | notEq
  | lt
  | ltEq
  | gt
  | gtEq
deriving DecidableEq, Repr

/-- Logical operation family. -/
inductive Logical where
  | and
  | or
deriving DecidableEq, Repr

/-- Bitwise operation family. -/
inductive Bitwise where
  | and
  | or
  | xor
  | shiftLeft
  | shiftRight
deriving DecidableEq, Repr

/-- String operation family. -/
inductive StringOp where
  | concat
deriving DecidableEq, Repr

/-- Pattern-matching operation family. -/
inductive PatternMatching where
  | like
  | notLike
deriving DecidableEq, Repr

/-- Operation: tagged union of the operator families. -/
inductive Operation where
  | arithmetic (op : Arithmetic)
  | comparison (op : Comparison)
  | logical (op : Logical)
  | bitwise (op : Bitwise)
  | stringOp (op : StringOp)
  | patternMatching (op : PatternMatching)
deriving DecidableEq, Repr

/-- Modelled from the spec: `OperationMapper::binary_operation`
(`operation_mapper.rs` is not among the sources).  Spec §4.2/§6: the
mapping is a total data-only table sending `+ - * / %` to `Arithmetic`,
`= <> < <= > >=` to `Comparison`, `AND OR` to `Logical`, the bitwise
symbols to `Bitwise`, `||` to `StringOp::Concat` and `LIKE`/`NOT LIKE`
to `PatternMatching`. -/
def binary_operation : BinaryOperator → Operation
  | BinaryOperator.plus => Operation.arithmetic Arithmetic.add
  | BinaryOperator.minus => Operation.arithmetic Arithmetic.sub
  | BinaryOperator.multiply => Operation.arithmetic Arithmetic.mul
  | BinaryOperator.divide => Operation.arithmetic Arithmetic.div
  | BinaryOperator.modulus => Operation.arithmetic Arithmetic.mod
  | BinaryOperator.eq => Operation.comparison Comparison.eq
  | BinaryOperator.notEq => Operation.comparison Comparison.notEq
  | BinaryOperator.lt => Operation.comparison Comparison.lt
  | BinaryOperator.ltEq => Operation.comparison Comparison.ltEq
  | BinaryOperator.gt => Operation.comparison Comparison.gt
  | BinaryOperator.gtEq => Operation.comparison Comparison.gtEq
  | BinaryOperator.and => Operation.logical Logical.and
  | BinaryOperator.or => Operation.logical Logical.or
  | BinaryOperator.bitwiseAnd => Operation.bitwise Bitwise.and
  | BinaryOperator.bitwiseOr => Operation.bitwise Bitwise.or
  | BinaryOperator.bitwiseXor => Operation.bitwise Bitwise.xor
  | BinaryOperator.shiftLeft => Operation.bitwise Bitwise.shiftLeft
  | BinaryOperator.shiftRight => Operation.bitwise Bitwise.shiftRight
  | BinaryOperator.stringConcat => Operation.stringOp StringOp.concat
  | BinaryOperator.like => Operation.patternMatching PatternMatching.like
  | BinaryOperator.notLike => Operation.patternMatching PatternMatching.notLike

/-- Untyped literal values. -/
inductive UntypedValue where
  | number (n : String)
  | string (s : String)
  | bool (b : Bool)
  | null
deriving DecidableEq, Repr

/-- Leaves of the static untyped tree. -/
inductive StaticUntypedItem where
  | const (value : UntypedValue)
  | param (index : Nat)
deriving DecidableEq, Repr

/-- Static untyped expression tree. -/
inductive StaticUntypedTree where
  | item (item : StaticUntypedItem)
  | operation (left : StaticUntypedTree) (op : Operation)
      (right : StaticUntypedTree)
deriving DecidableEq, Repr

/-- Features the builder rejects. -/
inductive Feature where
  | nationalStringLiteral
  | hexStringLiteral
  | timeInterval
deriving DecidableEq, Repr

/-- Modelled from the spec: the `AnalysisError` taxonomy (the crate root
`lib.rs` is not among the sources); only the variants the static builder
produces are needed.  The `SyntaxError` locus is carried structurally. -/
inductive AnalysisError where
  | columnCantBeReferenced (name : String)
  | syntaxError (statement : Statement) (around : Expr)
  | undefinedFunction (operation : Operation)
  | featureNotSupported (feature : Feature)
deriving DecidableEq, Repr

/-- Modelled from the spec: `parse_param_index` (the crate root `lib.rs`
is not among the sources): an identifier of the form a dollar sign
followed by a decimal `n ≥ 1` denotes parameter `n - 1`. -/
def parse_param_index (value : String) : Option Nat :=
  match value.data with
  | '$' :: rest =>
      if rest ≠ [] ∧ rest.all Char.isDigit then
        let n := rest.foldl (fun acc c => acc * 10 + (c.toNat - 48)) 0
        if 1 ≤ n then some (n - 1) else none
      else none
  | _ => none

/-- Rust `StaticTreeBuilder::value`. -/
def builder_value : Value → Except AnalysisError StaticUntypedTree
  | Value.number n =>
      Except.ok (StaticUntypedTree.item (StaticUntypedItem.const
        (UntypedValue.number n)))
  | Value.singleQuotedString s =>
      Except.ok (StaticUntypedTree.item (StaticUntypedItem.const
        (UntypedValue.string s)))
  | Value.nationalStringLiteral _ =>
      Except.error (AnalysisError.featureNotSupported
        Feature.nationalStringLiteral)
  | Value.hexStringLiteral _ =>
      Except.error (AnalysisError.featureNotSupported
        Feature.hexStringLiteral)
  | Value.boolean b =>
      Except.ok (StaticUntypedTree.item (StaticUntypedItem.const
        (UntypedValue.bool b)))
  | Value.interval =>
      Except.error (AnalysisError.featureNotSupported Feature.timeInterval)
  | Value.null =>
      Except.ok (StaticUntypedTree.item (StaticUntypedItem.const
        UntypedValue.null))

/-- Rust `StaticTreeBuilder::ident`. -/
def builder_ident (value : String) : Except AnalysisError StaticUntypedTree :=
  match parse_param_index value with
  | some index =>
      Except.ok (StaticUntypedTree.item (StaticUntypedItem.param index))
  | none => Except.error (AnalysisError.columnCantBeReferenced value)

/-- Rust `StaticTreeBuilder::inner_build`, with `StaticTreeBuilder::op`
inlined at the `BinaryOp` arm (in Rust the two are mutually
recursive). -/
def inner_build (root_expr : Expr) (original : Statement) :
    Except AnalysisError StaticUntypedTree :=
  match root_expr with
  | Expr.value v => builder_value v
  | Expr.identifier id => builder_ident id
  | Expr.binaryOp left op right =>
      match inner_build left original, inner_build right original with
      | Except.ok left_item, Except.ok right_item =>
          Except.ok (StaticUntypedTree.operation left_item
            (binary_operation op) right_item)
      | _, _ =>
          Except.error (AnalysisError.undefinedFunction (binary_operation op))
  | Expr.otherExpr => Except.error (AnalysisError.syntaxError original
      Expr.otherExpr)

/-- Rust `StaticTreeBuilder::build_from`. -/
def build_from (root_expr : Expr) (original : Statement) :
    Except AnalysisError StaticUntypedTree :=
  inner_build root_expr original

/-! ## Claim C9 -/

/-- C9: on `BinaryOp{l, op, r}` the static builder returns
`UndefinedFunction(binary_operation op)` whenever building either operand
fails, whatever the child's error was, and
`Operation{left, binary_operation op, right}` when both operands build
successfully. -/
theorem binary_op_build (l r : Expr) (op : BinaryOperator)
    (original : Statement) :
    (∀ lt rt, inner_build l original = Except.ok lt →
        inner_build r original = Except.ok rt →
        inner_build (Expr.binaryOp l op r) original =
          Except.ok (StaticUntypedTree.operation lt (binary_operation op) rt)) ∧
    ((¬ ∃ lt, inner_build l original = Except.ok lt) ∨
      (¬ ∃ rt, inner_build r original = Except.ok rt) →
      inner_build (Expr.binaryOp l op r) original =
        Except.error (AnalysisError.undefinedFunction (binary_operation op))) := by
  constructor
  · intro lt rt hl hr
    simp [inner_build, hl, hr]
  · intro h
    rcases hl : inner_build l original with el | lt <;>
      rcases hr : inner_build r original with er | rt <;>
      simp [inner_build, hl, hr]
    rcases h with h | h
    · exact h ⟨lt, hl⟩
    · exact h ⟨rt, hr⟩

/-- Witness for C9: a successful pair of literal operands, and a pair
whose left operand fails with `FeatureNotSupported` yet surfaces as
`UndefinedFunction(Add)`. -/
theorem binary_op_build_witness :
    inner_build (Expr.binaryOp (Expr.value (Value.number "1"))
        BinaryOperator.plus (Expr.value (Value.boolean true))) ⟨"stmt"⟩ =
      Except.ok (StaticUntypedTree.operation
        (StaticUntypedTree.item (StaticUntypedItem.const
          (UntypedValue.number "1")))
        (Operation.arithmetic Arithmetic.add)
        (StaticUntypedTree.item (StaticUntypedItem.const
          (UntypedValue.bool true)))) ∧
    inner_build (Expr.binaryOp (Expr.value (Value.nationalStringLiteral "x"))
        BinaryOperator.plus (Expr.value (Value.number "1"))) ⟨"stmt"⟩ =
      Except.error (AnalysisError.undefinedFunction
        (Operation.arithmetic Arithmetic.add)) :=
  ⟨(binary_op_build (Expr.value (Value.number "1"))
      (Expr.value (Value.boolean true)) BinaryOperator.plus ⟨"stmt"⟩).1
      _ _ rfl rfl,
   (binary_op_build (Expr.value (Value.nationalStringLiteral "x"))
      (Expr.value (Value.number "1")) BinaryOperator.plus ⟨"stmt"⟩).2
      (Or.inl (by rintro ⟨lt, hlt⟩; exact Except.noConfusion hlt))⟩

end IsoDB
